import Mathlib

/-!
Verification development for the DoesPlayer media-player core.

The definitions below are a shallow embedding of the playback pipeline:
`PlaybackClock` and the sync-loop functions model `src/sync.py`,
`VideoDecoder` models the worker state of `src/video_decoder.py`, and
`AudioTrackPlayer` / `AudioManager` model `src/audio_decoder.py`.

Time values (`pts`, wall-clock readings) are modelled as rationals; the
current wall-clock reading (`time.perf_counter()` in the source) is passed
as an explicit argument to every operation that reads it.  Locks in the
source guard only the field updates modelled here, so most lock-protected
bodies are embedded as pure state transformers; the one exception is
`PlaybackClock.pause`, whose body re-acquires the clock's non-reentrant
lock and therefore may never return — it is modelled with an `Option`
result, `none` standing for the call that does not complete.
-/

/-- Decoded video frame (`VideoFrame` dataclass, video_decoder.py).  The
pixel buffer is abstracted to an opaque identifier. -/
structure VideoFrame where
  image : Nat
  pts : ℚ
  frame_number : Int
deriving DecidableEq, Repr

/-- Decoded audio chunk (`AudioChunk` dataclass, audio_decoder.py).  The
interleaved sample block is modelled as a list of sample values. -/
structure AudioChunk where
  data : List ℚ
  pts : ℚ
  duration : ℚ
deriving DecidableEq, Repr

/-! ## Playback clock (sync.py, class `PlaybackClock`) -/

/-- State of the master playback clock: fields `_is_running`, `_start_time`,
`_start_pts`, `_current_pts`, `_paused_at` of `PlaybackClock`.  The spec
calls `start_time` "start_wall_time" and `paused_at` "paused_pts". -/
structure PlaybackClock where
  is_running : Bool
  start_time : ℚ
  start_pts : ℚ
  current_pts : ℚ
  paused_at : ℚ
deriving DecidableEq, Repr

/-- `PlaybackClock.start` (sync.py lines 40-46). -/
def PlaybackClock.start (c : PlaybackClock) (pts wall_now : ℚ) : PlaybackClock :=
  { c with start_time := wall_now, start_pts := pts, current_pts := pts,
           is_running := true }

/-- `PlaybackClock.get_time` (sync.py lines 73-80). -/
def PlaybackClock.get_time (c : PlaybackClock) (wall_now : ℚ) : ℚ :=
  if c.is_running then c.start_pts + (wall_now - c.start_time) else c.paused_at

/-- `PlaybackClock.pause` (sync.py lines 48-53).  The body runs under
`with self._lock:`; when `_is_running` it evaluates `self.get_time()`,
which re-acquires the same `threading.Lock`.  That lock is not reentrant,
so the call blocks forever before writing any field: the capture-and-stop
update is never performed.  `none` models the non-returning call; when the
clock is not running the guard fails and the call returns with the state
unchanged. -/
def PlaybackClock.pause (c : PlaybackClock) : Option PlaybackClock :=
  if c.is_running then none else some c

/-- `PlaybackClock.resume` (sync.py lines 55-61). -/
def PlaybackClock.resume (c : PlaybackClock) (wall_now : ℚ) : PlaybackClock :=
  if c.is_running then c
  else { c with start_time := wall_now, start_pts := c.paused_at,
                is_running := true }

/-- `PlaybackClock.seek` (sync.py lines 63-71). -/
def PlaybackClock.seek (c : PlaybackClock) (pts wall_now : ℚ) : PlaybackClock :=
  if c.is_running then
    { c with start_pts := pts, current_pts := pts, start_time := wall_now }
  else
    { c with start_pts := pts, current_pts := pts, paused_at := pts }

/-- `PlaybackClock.stop` (sync.py lines 87-91). -/
def PlaybackClock.stop (c : PlaybackClock) : PlaybackClock :=
  { c with is_running := false, current_pts := 0 }

/-! ## Sync controller loop (sync.py, `SyncController._sync_loop`)

One iteration of the loop (lines 144-193) for a running clock: dequeue the
next frame; if its pts is behind `current_time - frame_duration` it is late:
count a drop and drain the queue non-blockingly, replacing the frame with
the first queued frame that is not late (counting every late frame drained
past); if the queue runs out, the originally dequeued frame is kept.  The
kept frame is then (after the timing wait) handed to `on_frame_ready`. -/

/-- The catch-up drain (sync.py lines 162-172).  `fallback` is the late
frame already dequeued, `thr = current_time - frame_duration`.  Returns the
frame left in the loop variable `frame`, the remaining queue, and the
number of drops counted inside the drain. -/
def catch_up (fallback : VideoFrame) (thr : ℚ) :
    List VideoFrame → VideoFrame × List VideoFrame × Nat
  | [] => (fallback, [], 0)
  | g :: rest =>
    if thr ≤ g.pts then (g, rest, 0)
    else
      let r := catch_up fallback thr rest
      (r.1, r.2.1, r.2.2 + 1)

/-- One dequeue-and-select iteration of `_sync_loop` (sync.py lines
147-172): `none` when the queue is empty (the loop just retries), otherwise
the frame that will be displayed, the remaining queue, and the drop count
of this iteration. -/
def sync_step (t fd : ℚ) :
    List VideoFrame → Option VideoFrame × List VideoFrame × Nat
  | [] => (none, [], 0)
  | f :: rest =>
    if f.pts < t - fd then
      let r := catch_up f (t - fd) rest
      (some r.1, r.2.1, r.2.2 + 1)
    else (some f, rest, 0)

/-- Repeated iterations of `_sync_loop` under uninterrupted playback
(`_running` true and clock running throughout, so every selected frame is
passed to `on_frame_ready`, sync.py lines 186-189).  `ts` is the clock
reading at each iteration; the result is the sequence of frames passed to
`on_frame_ready`. -/
def sync_run (fd : ℚ) : List ℚ → List VideoFrame → List VideoFrame
  | [], _ => []
  | t :: ts, q =>
    match sync_step t fd q with
    | (none, q2, _) => sync_run fd ts q2
    | (some sel, q2, _) => sel :: sync_run fd ts q2

/-! ## Video decode worker (video_decoder.py, class `VideoDecoder`) -/

/-- `FRAME_CACHE_SIZE` constant (video_decoder.py line 18). -/
def FRAME_CACHE_SIZE : Nat := 120

/-- Python `int()` truncation toward zero on a rational value. -/
def pyInt (q : ℚ) : Int := q.num.tdiv q.den

/-- Worker state of `VideoDecoder`: flags `_running`, `_paused`,
`_finished`, `_seek_requested`, `_seek_target`, metadata `duration` and
`fps`, the run-loop local counter `frame_number`, the output `frame_queue`,
the stepping cache `_frame_cache`, and the container's current read
position (abstracted to a pts value). -/
structure VideoDecoder where
  running : Bool
  paused : Bool
  finished : Bool
  seek_requested : Bool
  seek_target : ℚ
  duration : ℚ
  fps : ℚ
  frame_number : Int
  frame_queue : List VideoFrame
  frame_cache : List VideoFrame
  container_pos : ℚ
deriving DecidableEq, Repr

/-- `VideoDecoder.seek` (video_decoder.py lines 206-211): clamp the target
to `[0, duration]`, raise the request flag, clear the finished flag. -/
def VideoDecoder.seek (s : VideoDecoder) (position : ℚ) : VideoDecoder :=
  { s with seek_target := max 0 (min position s.duration),
           seek_requested := true, finished := false }

/-- `VideoDecoder._perform_seek` (video_decoder.py lines 196-204):
`seek_ok` says whether the container accepts the timestamp.  On rejection
the exception is caught (logged) and the container position is unchanged. -/
def VideoDecoder.perform_seek (s : VideoDecoder) (seek_ok : Bool) : VideoDecoder :=
  if seek_ok then { s with container_pos := s.seek_target } else s

/-- The seek-handling block of `VideoDecoder.run` (video_decoder.py lines
127-138): when the request flag is up, perform the container seek, clear
the flag, recompute the loop-local `frame_number` as
`int(seek_target * fps)`, and drain the output queue — unconditionally,
whether or not the container accepted the seek. -/
def VideoDecoder.handle_seek_request (s : VideoDecoder) (seek_ok : Bool) : VideoDecoder :=
  if s.seek_requested then
    { s.perform_seek seek_ok with
        seek_requested := false,
        frame_number := pyInt (s.seek_target * s.fps),
        frame_queue := [] }
  else s

/-- `VideoDecoder.is_finished` (video_decoder.py lines 213-216). -/
def VideoDecoder.is_finished (s : VideoDecoder) : Bool :=
  s.finished && !s.running

/-- `VideoDecoder.pause` (video_decoder.py lines 218-220). -/
def VideoDecoder.pause (s : VideoDecoder) : VideoDecoder :=
  { s with paused := true }

/-- `VideoDecoder.resume` (video_decoder.py lines 222-227): returns
immediately when the worker is no longer running (end of stream),
otherwise clears the paused flag. -/
def VideoDecoder.resume (s : VideoDecoder) : VideoDecoder :=
  if s.running then { s with paused := false } else s

/-- `VideoDecoder.stop` (video_decoder.py lines 233-240): clears running
and paused, and `clear_frame_cache()` empties the stepping cache. -/
def VideoDecoder.stop (s : VideoDecoder) : VideoDecoder :=
  { s with running := false, paused := false, frame_cache := [] }

/-- `VideoDecoder._add_to_cache` (video_decoder.py lines 268-282): if some
cached frame's pts is within 0.001 s of the new frame's pts, the frame is
not inserted; otherwise append, sort by pts, and evict from the front
while over `FRAME_CACHE_SIZE`. -/
def VideoDecoder.add_to_cache (s : VideoDecoder) (f : VideoFrame) : VideoDecoder :=
  if s.frame_cache.any (fun c => |c.pts - f.pts| < 1 / 1000) then s
  else
    let cache := List.insertionSort (fun a b => a.pts ≤ b.pts) (s.frame_cache ++ [f])
    { s with frame_cache := cache.drop (cache.length - FRAME_CACHE_SIZE) }

/-! ## Audio track worker (audio_decoder.py, class `AudioTrackPlayer`) -/

/-- Worker state of `AudioTrackPlayer`: flags `_running`, `_paused`,
`_finished`, `_muted`, `_seek_requested`, the scalar `_volume`,
`_seek_target`, the chunk queue `_audio_queue`, the tracked `current_pts`,
and the container's read position (abstracted to a pts value). -/
structure AudioTrackPlayer where
  running : Bool
  paused : Bool
  finished : Bool
  volume : ℚ
  muted : Bool
  seek_requested : Bool
  seek_target : ℚ
  queue : List AudioChunk
  current_pts : ℚ
  container_pos : ℚ
deriving DecidableEq, Repr

/-- `AudioTrackPlayer._audio_callback` (audio_decoder.py lines 103-131):
returns the samples written into `outdata` (one output row abstracted to
one sample value) together with the updated state.  When paused, or when
the queue is empty, the buffer is zero-filled and the state is unchanged.
Otherwise the head chunk is dequeued, volume is applied, mute zero-fills
the whole buffer, a short chunk is padded with silence, and `current_pts`
is set to the dequeued chunk's pts in the muted and unmuted cases alike. -/
def AudioTrackPlayer.audio_callback (s : AudioTrackPlayer) (frames : Nat) :
    List ℚ × AudioTrackPlayer :=
  if s.paused then (List.replicate frames 0, s)
  else
    match s.queue with
    | [] => (List.replicate frames 0, s)
    | chunk :: rest =>
      let data := chunk.data.map (fun x => x * s.volume)
      let out :=
        if s.muted then List.replicate frames 0
        else if frames ≤ data.length then data.take frames
        else data ++ List.replicate (frames - data.length) 0
      (out, { s with queue := rest, current_pts := chunk.pts })

/-- `AudioTrackPlayer._perform_seek` (audio_decoder.py lines 260-267). -/
def AudioTrackPlayer.perform_seek (s : AudioTrackPlayer) (seek_ok : Bool) :
    AudioTrackPlayer :=
  if seek_ok then { s with container_pos := s.seek_target } else s

/-- The seek-handling block of `AudioTrackPlayer.run` (audio_decoder.py
lines 172-182): perform the container seek, clear the flag, drain the
chunk queue. -/
def AudioTrackPlayer.handle_seek_request (s : AudioTrackPlayer) (seek_ok : Bool) :
    AudioTrackPlayer :=
  if s.seek_requested then
    { s.perform_seek seek_ok with seek_requested := false, queue := [] }
  else s

/-- `AudioTrackPlayer.seek` (audio_decoder.py lines 269-273). -/
def AudioTrackPlayer.seek (s : AudioTrackPlayer) (position : ℚ) : AudioTrackPlayer :=
  { s with seek_target := position, seek_requested := true }

/-- `AudioTrackPlayer.pause` (audio_decoder.py lines 275-277). -/
def AudioTrackPlayer.pause (s : AudioTrackPlayer) : AudioTrackPlayer :=
  { s with paused := true }

/-- `AudioTrackPlayer.resume` (audio_decoder.py lines 279-284). -/
def AudioTrackPlayer.resume (s : AudioTrackPlayer) : AudioTrackPlayer :=
  if s.running then { s with paused := false } else s

/-- `AudioTrackPlayer.set_volume` (audio_decoder.py lines 286-288):
`max(0.0, min(1.0, volume))`. -/
def AudioTrackPlayer.set_volume (s : AudioTrackPlayer) (v : ℚ) : AudioTrackPlayer :=
  { s with volume := max 0 (min 1 v) }

/-- `AudioTrackPlayer.set_muted` (audio_decoder.py lines 294-296). -/
def AudioTrackPlayer.set_muted (s : AudioTrackPlayer) (m : Bool) : AudioTrackPlayer :=
  { s with muted := m }

/-- `AudioTrackPlayer.stop` (audio_decoder.py lines 307-311). -/
def AudioTrackPlayer.stop (s : AudioTrackPlayer) : AudioTrackPlayer :=
  { s with running := false, paused := false }

/-- Enqueue of a decoded chunk by the worker loop (audio_decoder.py lines
230-235). -/
def AudioTrackPlayer.enqueue (s : AudioTrackPlayer) (c : AudioChunk) : AudioTrackPlayer :=
  { s with queue := s.queue ++ [c] }

/-- The state-mutating operations callable on an `AudioTrackPlayer`. -/
inductive AudioOp where
  | set_volume (v : ℚ)
  | set_muted (m : Bool)
  | pause
  | resume
  | stop
  | seek (position : ℚ)
  | handle_seek_request (seek_ok : Bool)
  | audio_callback (frames : Nat)
  | enqueue (c : AudioChunk)

/-- Apply one operation to the track player's state. -/
def AudioTrackPlayer.apply_op (s : AudioTrackPlayer) : AudioOp → AudioTrackPlayer
  | .set_volume v => s.set_volume v
  | .set_muted m => s.set_muted m
  | .pause => s.pause
  | .resume => s.resume
  | .stop => s.stop
  | .seek p => s.seek p
  | .handle_seek_request ok => s.handle_seek_request ok
  | .audio_callback n => (s.audio_callback n).2
  | .enqueue c => s.enqueue c

/-! ## Track manager (audio_decoder.py, class `AudioManager`) -/

/-- `AudioManager` state: the `players` dict mapping track id to player,
modelled as an association list. -/
structure AudioManager where
  players : List (Int × AudioTrackPlayer)
deriving DecidableEq, Repr

/-- `AudioManager.set_track_volume` (audio_decoder.py lines 396-399): only
acts when `track_id` is a key of `players`. -/
def AudioManager.set_track_volume (m : AudioManager) (track_id : Int) (volume : ℚ) :
    AudioManager :=
  if (m.players.lookup track_id).isSome then
    { m with players := m.players.map (fun p => if p.1 = track_id then (p.1, p.2.set_volume volume) else p) }
  else m

/-- `AudioManager.set_track_muted` (audio_decoder.py lines 401-404). -/
def AudioManager.set_track_muted (m : AudioManager) (track_id : Int) (muted : Bool) :
    AudioManager :=
  if (m.players.lookup track_id).isSome then
    { m with players := m.players.map (fun p => if p.1 = track_id then (p.1, p.2.set_muted muted) else p) }
  else m

/-- A running worker with a pending seek to 2.0 s at 30 fps, a loop
counter of 7, and one queued frame; the container will reject the seek. -/
def seekFailState : VideoDecoder :=
  ⟨true, false, false, true, 2, 10, 30, 7, [⟨0, 0, 0⟩], [], 0⟩

/-- A worker at 30 fps whose stepping cache holds one frame at pts 0. -/
def stepCacheState : VideoDecoder :=
  ⟨true, false, false, false, 0, 10, 30, 0, [], [⟨0, 0, 0⟩], 0⟩

/-! ## Helper lemmas -/

/-- The frame selected by the catch-up drain, together with the remaining
queue, forms a subsequence of the dequeued frame followed by the queue. -/
theorem catch_up_sublist (fallback : VideoFrame) (thr : ℚ) (q : List VideoFrame) :
    List.Sublist ((catch_up fallback thr q).1 :: (catch_up fallback thr q).2.1) (fallback :: q) := by
  induction q with
  | nil =>
    simp [catch_up]
  | cons g rest ih =>
    by_cases h : thr ≤ g.pts
    · simp only [catch_up, if_pos h]
      exact List.Sublist.cons _ (List.Sublist.refl _)
    · simp only [catch_up, if_neg h]
      exact ih.trans (List.Sublist.cons₂ _ (List.Sublist.cons _ (List.Sublist.refl _)))

/-- If some queued frame is at or past the threshold, the catch-up drain
selects a frame at or past the threshold. -/
theorem catch_up_reaches (fallback : VideoFrame) (thr : ℚ) (q : List VideoFrame)
    (h : ∃ g ∈ q, thr ≤ g.pts) : thr ≤ (catch_up fallback thr q).1.pts := by
  induction q with
  | nil => simp at h
  | cons g rest ih =>
    by_cases hg : thr ≤ g.pts
    · simp only [catch_up, if_pos hg]
      exact hg
    · simp only [catch_up, if_neg hg]
      rcases h with ⟨w, hw, hwp⟩
      rcases List.mem_cons.mp hw with rfl | hw2
      · exact absurd hwp hg
      · exact ih ⟨w, hw2, hwp⟩

/-- If every queued frame is behind the threshold, the catch-up drain
exhausts the queue, counts every frame as dropped, and keeps the fallback
frame. -/
theorem catch_up_exhausts (fallback : VideoFrame) (thr : ℚ) (q : List VideoFrame)
    (h : ∀ g ∈ q, g.pts < thr) : catch_up fallback thr q = (fallback, [], q.length) := by
  induction q with
  | nil => rfl
  | cons g rest ih =>
    have hg : ¬ thr ≤ g.pts := not_le.mpr (h g (List.mem_cons_self g rest))
    simp only [catch_up, if_neg hg, ih (fun x hx => h x (List.mem_cons_of_mem g hx))]
    rfl

/-- The frames passed to `on_frame_ready` form a subsequence of the queued
frames. -/
theorem sync_run_sublist (fd : ℚ) (ts : List ℚ) (q : List VideoFrame) :
    List.Sublist (sync_run fd ts q) q := by
  induction ts generalizing q with
  | nil => simp [sync_run]
  | cons t ts ih =>
    cases q with
    | nil =>
      have h := ih ([] : List VideoFrame)
      simpa [sync_run, sync_step] using h
    | cons f rest =>
      by_cases h : f.pts < t - fd
      · have hstep : sync_step t fd (f :: rest) =
            (some (catch_up f (t - fd) rest).1, (catch_up f (t - fd) rest).2.1,
              (catch_up f (t - fd) rest).2.2 + 1) := by
          simp only [sync_step, if_pos h]
        simp only [sync_run, hstep]
        exact (List.Sublist.cons₂ _ (ih _)).trans (catch_up_sublist f (t - fd) rest)
      · have hstep : sync_step t fd (f :: rest) = (some f, rest, 0) := by
          simp only [sync_step, if_neg h]
        simp only [sync_run, hstep]
        exact List.Sublist.cons₂ _ (ih rest)

/-- The audio callback never changes the volume scalar. -/
theorem audio_callback_volume (s : AudioTrackPlayer) (n : Nat) :
    ((s.audio_callback n).2).volume = s.volume := by
  unfold AudioTrackPlayer.audio_callback
  split
  · rfl
  · rcases hq : s.queue with _ | ⟨c, rest⟩ <;> simp [hq]

/-- `_perform_seek` never changes the volume scalar. -/
theorem perform_seek_volume (s : AudioTrackPlayer) (ok : Bool) :
    (s.perform_seek ok).volume = s.volume := by
  unfold AudioTrackPlayer.perform_seek
  split <;> rfl

/-- The run-loop seek handling never changes the volume scalar. -/
theorem handle_seek_request_volume (s : AudioTrackPlayer) (ok : Bool) :
    (s.handle_seek_request ok).volume = s.volume := by
  unfold AudioTrackPlayer.handle_seek_request
  split
  · exact perform_seek_volume s ok
  · rfl

/-! ## Claim C2 -/

/-- C2: for every state of the Playback Clock, `get_time()` returns
`start_pts + (wall_now - start_wall_time)` when the clock is running, and
returns the captured pause position (`paused_pts`, field `paused_at`) when
it is not running. -/
theorem get_time_invariant (c : PlaybackClock) (wall_now : ℚ) :
    (c.is_running = true →
      c.get_time wall_now = c.start_pts + (wall_now - c.start_time)) ∧
    (c.is_running = false → c.get_time wall_now = c.paused_at) := by
  unfold PlaybackClock.get_time
  constructor
  · intro h
    simp [h]
  · intro h
    simp [h]

/-- Witness for C2 on a concrete running clock and a concrete paused clock. -/
theorem get_time_invariant_witness :
    ((⟨true, 2, 5, 5, 0⟩ : PlaybackClock).is_running = true ∧
      (⟨true, 2, 5, 5, 0⟩ : PlaybackClock).get_time 10 = 5 + (10 - 2)) ∧
    ((⟨false, 2, 5, 5, 7⟩ : PlaybackClock).is_running = false ∧
      (⟨false, 2, 5, 5, 7⟩ : PlaybackClock).get_time 10 = 7) :=
  ⟨⟨rfl, (get_time_invariant ⟨true, 2, 5, 5, 0⟩ 10).1 rfl⟩,
   ⟨rfl, (get_time_invariant ⟨false, 2, 5, 5, 7⟩ 10).2 rfl⟩⟩

/-! ## Claim C8 -/

/-- C8: the idempotence claim fails on the code for the reachable reason
that `pause()` on a running clock never completes at all — evaluated at a
concrete running clock, `pause()` deadlocks (`none`), so the once-paused
state the claim compares against is never produced by the program; on a
clock that is already not running, `pause()` returns and leaves the state
unchanged, so repeating it there changes nothing either. -/
theorem pause_deadlocks_when_running :
    (⟨true, 2, 5, 5, 0⟩ : PlaybackClock).pause = none ∧
    (⟨false, 2, 5, 5, 7⟩ : PlaybackClock).pause = some ⟨false, 2, 5, 5, 7⟩ :=
  ⟨rfl, rfl⟩

/-! ## Claim C7 -/

/-- C7: once the Video Decode Worker has reached the Finished state (no
longer running), `resume()` is a no-op: the whole worker state, including
the paused flag, is unchanged. -/
theorem resume_noop_when_finished (s : VideoDecoder) (h : s.is_finished = true) :
    s.resume = s := by
  have hr : s.running = false := by
    have := h
    unfold VideoDecoder.is_finished at this
    rcases Bool.and_eq_true _ _ |>.mp this with ⟨_, hnr⟩
    simpa using hnr
  unfold VideoDecoder.resume
  rw [hr]
  simp

/-- Witness for C7: a finished, still-paused worker is left untouched by
`resume()`. -/
theorem resume_noop_when_finished_witness :
    (⟨false, true, true, false, 0, 10, 30, 42, [], [], 0⟩ : VideoDecoder).is_finished = true ∧
    (⟨false, true, true, false, 0, 10, 30, 42, [], [], 0⟩ : VideoDecoder).resume =
      ⟨false, true, true, false, 0, 10, 30, 42, [], [], 0⟩ :=
  ⟨rfl, resume_noop_when_finished ⟨false, true, true, false, 0, 10, 30, 42, [], [], 0⟩ rfl⟩

/-! ## Claim C6 -/

/-- C6: whenever the audio output callback dequeues a chunk while the track
is muted (and not paused), the entire output buffer is zero-filled and the
tracked `current_pts` is still advanced to the dequeued chunk's pts. -/
theorem muted_callback_advances_pts (s : AudioTrackPlayer) (n : Nat)
    (chunk : AudioChunk) (rest : List AudioChunk)
    (hp : s.paused = false) (hm : s.muted = true) (hq : s.queue = chunk :: rest) :
    (s.audio_callback n).1 = List.replicate n 0 ∧
    (s.audio_callback n).2.current_pts = chunk.pts ∧
    (s.audio_callback n).2.queue = rest := by
  unfold AudioTrackPlayer.audio_callback
  rw [hp, hq]
  simp [hm]

/-- Witness for C6 on a concrete muted player holding one chunk. -/
theorem muted_callback_advances_pts_witness :
    ((⟨true, false, false, 1, true, false, 0, [⟨[5, 5], 3, 1⟩], 0, 0⟩ :
        AudioTrackPlayer).audio_callback 4).1 = List.replicate 4 0 ∧
    ((⟨true, false, false, 1, true, false, 0, [⟨[5, 5], 3, 1⟩], 0, 0⟩ :
        AudioTrackPlayer).audio_callback 4).2.current_pts = (3 : ℚ) ∧
    ((⟨true, false, false, 1, true, false, 0, [⟨[5, 5], 3, 1⟩], 0, 0⟩ :
        AudioTrackPlayer).audio_callback 4).2.queue = [] :=
  muted_callback_advances_pts _ 4 ⟨[5, 5], 3, 1⟩ [] rfl rfl rfl

/-! ## Claim C9 -/

/-- C9: `set_volume(v)` always stores a volume in `[0, 1]`, for any input
`v`, and every operation on the track preserves that bound. -/
theorem volume_stays_in_range :
    (∀ (s : AudioTrackPlayer) (v : ℚ),
      0 ≤ (s.set_volume v).volume ∧ (s.set_volume v).volume ≤ 1) ∧
    (∀ (s : AudioTrackPlayer) (op : AudioOp), 0 ≤ s.volume → s.volume ≤ 1 →
      0 ≤ (s.apply_op op).volume ∧ (s.apply_op op).volume ≤ 1) := by
  have hclamp : ∀ (s : AudioTrackPlayer) (v : ℚ),
      0 ≤ (s.set_volume v).volume ∧ (s.set_volume v).volume ≤ 1 := by
    intro s v
    unfold AudioTrackPlayer.set_volume
    constructor
    · exact le_max_left 0 _
    · exact max_le (by norm_num) (min_le_left 1 v)
  refine ⟨hclamp, ?_⟩
  intro s op h0 h1
  have hvol : (s.apply_op op).volume = s.volume ∨
      ∃ v, s.apply_op op = s.set_volume v := by
    cases op with
    | set_volume v => exact Or.inr ⟨v, rfl⟩
    | set_muted m => exact Or.inl rfl
    | pause => exact Or.inl rfl
    | resume =>
      refine Or.inl ?_
      show (s.resume).volume = s.volume
      unfold AudioTrackPlayer.resume
      split <;> rfl
    | stop => exact Or.inl rfl
    | seek p => exact Or.inl rfl
    | handle_seek_request ok => exact Or.inl (handle_seek_request_volume s ok)
    | audio_callback n => exact Or.inl (audio_callback_volume s n)
    | enqueue c => exact Or.inl rfl
  rcases hvol with h | ⟨v, hv⟩
  · rw [h]
    exact ⟨h0, h1⟩
  · rw [hv]
    exact hclamp s v

/-- Witness for C9: an out-of-range request (5.0) is clamped into `[0, 1]`,
and an operation on a concrete in-range player keeps the bound. -/
theorem volume_stays_in_range_witness :
    (0 ≤ ((⟨true, false, false, 1, false, false, 0, [], 0, 0⟩ :
        AudioTrackPlayer).set_volume 5).volume ∧
      ((⟨true, false, false, 1, false, false, 0, [], 0, 0⟩ :
        AudioTrackPlayer).set_volume 5).volume ≤ 1) ∧
    (0 ≤ ((⟨true, false, false, 1, false, false, 0, [], 0, 0⟩ :
        AudioTrackPlayer).apply_op AudioOp.pause).volume ∧
      ((⟨true, false, false, 1, false, false, 0, [], 0, 0⟩ :
        AudioTrackPlayer).apply_op AudioOp.pause).volume ≤ 1) :=
  ⟨volume_stays_in_range.1 ⟨true, false, false, 1, false, false, 0, [], 0, 0⟩ 5,
   volume_stays_in_range.2 ⟨true, false, false, 1, false, false, 0, [], 0, 0⟩
     AudioOp.pause (by norm_num) (by norm_num)⟩

/-! ## Claim C10 -/

/-- C10: `set_track_volume` and `set_track_muted` with a track id that has
no registered player leave the manager (hence every existing player)
unchanged, and raise no error (both operations are total). -/
theorem unknown_track_id_noop (m : AudioManager) (track_id : Int) (v : ℚ) (b : Bool)
    (h : m.players.lookup track_id = none) :
    m.set_track_volume track_id v = m ∧ m.set_track_muted track_id b = m := by
  unfold AudioManager.set_track_volume AudioManager.set_track_muted
  rw [h]
  simp

/-- Witness for C10: a manager owning only track 0 is untouched by volume
and mute commands addressed to track 1. -/
theorem unknown_track_id_noop_witness :
    (⟨[(0, ⟨true, false, false, 1, false, false, 0, [], 0, 0⟩)]⟩ :
        AudioManager).players.lookup 1 = none ∧
    (⟨[(0, ⟨true, false, false, 1, false, false, 0, [], 0, 0⟩)]⟩ :
        AudioManager).set_track_volume 1 (1/2) =
      ⟨[(0, ⟨true, false, false, 1, false, false, 0, [], 0, 0⟩)]⟩ ∧
    (⟨[(0, ⟨true, false, false, 1, false, false, 0, [], 0, 0⟩)]⟩ :
        AudioManager).set_track_muted 1 true =
      ⟨[(0, ⟨true, false, false, 1, false, false, 0, [], 0, 0⟩)]⟩ :=
  ⟨rfl,
   (unknown_track_id_noop
      ⟨[(0, ⟨true, false, false, 1, false, false, 0, [], 0, 0⟩)]⟩ 1 (1/2) true rfl).1,
   (unknown_track_id_noop
      ⟨[(0, ⟨true, false, false, 1, false, false, 0, [], 0, 0⟩)]⟩ 1 (1/2) true rfl).2⟩

/-! ## Claim C3 -/

/-- C3: during uninterrupted playback, with frames arriving on the queue in
non-decreasing pts order, the pts values passed to `on_frame_ready` are
non-decreasing, whatever clock readings the loop observes. -/
theorem on_frame_ready_monotone (fd : ℚ) (ts : List ℚ) (q : List VideoFrame)
    (hq : List.Pairwise (fun a b => a ≤ b) (q.map VideoFrame.pts)) :
    List.Pairwise (fun a b => a ≤ b) ((sync_run fd ts q).map VideoFrame.pts) :=
  List.Pairwise.sublist (List.Sublist.map VideoFrame.pts (sync_run_sublist fd ts q)) hq

/-- Witness for C3 on a two-frame queue observed at two clock readings. -/
theorem on_frame_ready_monotone_witness :
    List.Pairwise (fun a b => a ≤ b)
      (List.map VideoFrame.pts [(⟨0, 0, 0⟩ : VideoFrame), ⟨1, 3, 1⟩]) ∧
    List.Pairwise (fun a b => a ≤ b)
      ((sync_run 1 [0, 5] [(⟨0, 0, 0⟩ : VideoFrame), ⟨1, 3, 1⟩]).map VideoFrame.pts) :=
  ⟨by norm_num,
   on_frame_ready_monotone 1 [0, 5] [(⟨0, 0, 0⟩ : VideoFrame), ⟨1, 3, 1⟩] (by norm_num)⟩

/-! ## Claim C1 -/

/-- C1 counterexample: with frame duration 1 and the clock at 10, a
dequeued frame with pts 0 is late and is counted as dropped, yet — the
queue holding no replacement — that same late frame is passed to
`on_frame_ready`. -/
theorem late_frame_still_displayed :
    ((⟨0, 0, 0⟩ : VideoFrame).pts < 10 - 1) ∧
    sync_step 10 1 [⟨0, 0, 0⟩] = (some ⟨0, 0, 0⟩, [], 1) ∧
    sync_run 1 [10] [⟨0, 0, 0⟩] = [⟨0, 0, 0⟩] := by
  refine ⟨by norm_num, ?_, ?_⟩ <;>
    norm_num [sync_step, sync_run, catch_up]

/-- C1 (amended): a dequeued late frame is dropped, counted, and replaced
by the first queued frame that is not late whenever the queue contains
one; when every queued frame is also late (or the queue is empty), the
drain exhausts the queue, counts all of them, and the originally dequeued
late frame itself is passed to `on_frame_ready`. -/
theorem late_frame_drop (f : VideoFrame) (rest : List VideoFrame) (t fd : ℚ)
    (hl : f.pts < t - fd) :
    ((∃ g ∈ rest, t - fd ≤ g.pts) →
      ∃ sel q2 d, sync_step t fd (f :: rest) = (some sel, q2, d) ∧
        t - fd ≤ sel.pts ∧ f.pts < sel.pts) ∧
    ((∀ g ∈ rest, g.pts < t - fd) →
      sync_step t fd (f :: rest) = (some f, [], rest.length + 1)) := by
  constructor
  · intro hex
    refine ⟨(catch_up f (t - fd) rest).1, (catch_up f (t - fd) rest).2.1,
      (catch_up f (t - fd) rest).2.2 + 1, ?_, ?_, ?_⟩
    · simp only [sync_step, if_pos hl]
    · exact catch_up_reaches f (t - fd) rest hex
    · exact lt_of_lt_of_le hl (catch_up_reaches f (t - fd) rest hex)
  · intro hall
    simp only [sync_step, if_pos hl, catch_up_exhausts f (t - fd) rest hall]

/-- Witness for C1 (amended): the late frame at pts 0 is replaced by the
queued frame at pts 20, which is on time. -/
theorem late_frame_drop_witness :
    ((⟨0, 0, 0⟩ : VideoFrame).pts < 10 - 1) ∧
    (∃ sel q2 d,
      sync_step 10 1 [(⟨0, 0, 0⟩ : VideoFrame), ⟨1, 20, 1⟩] = (some sel, q2, d) ∧
      (10 - 1 : ℚ) ≤ sel.pts ∧ (⟨0, 0, 0⟩ : VideoFrame).pts < sel.pts) :=
  ⟨by norm_num,
   (late_frame_drop ⟨0, 0, 0⟩ [⟨1, 20, 1⟩] 10 1 (by norm_num)).1
     ⟨⟨1, 20, 1⟩, by simp, by norm_num⟩⟩

/-- Distance from zero of a non-negative rational. -/
theorem abs_zero_sub_of_nonneg (a : ℚ) (h : 0 ≤ a) : |(0 : ℚ) - a| = a := by
  rw [zero_sub, abs_neg, abs_of_nonneg h]

/-! ## Claim C4 -/

/-- C4 counterexample: when the container rejects the seek, the decoder's
loop-local `frame_number` and the pending queue contents are NOT left
unchanged — `frame_number` is recomputed from the seek target and the
queue is drained, as for a successful seek. -/
theorem failed_seek_changes_position_state :
    (seekFailState.handle_seek_request false).frame_number ≠ seekFailState.frame_number ∧
    (seekFailState.handle_seek_request false).frame_queue ≠ seekFailState.frame_queue := by
  have hn : (seekFailState.handle_seek_request false).frame_number = pyInt (2 * 30) := rfl
  have h60 : pyInt (2 * 30) = pyInt 60 := by
    norm_num
  constructor
  · rw [hn, h60]
    decide
  · decide

/-- C4 (amended): on a rejected seek the error is logged, the container's
read position and the running/paused/finished flags are unchanged and
decoding continues; but the seek request is still consumed, the loop-local
frame counter is still recomputed as `int(seek_target * fps)`, and the
pending queue is still drained — exactly as for an accepted seek. -/
theorem failed_seek_behavior (s : VideoDecoder) (h : s.seek_requested = true) :
    (s.handle_seek_request false).container_pos = s.container_pos ∧
    (s.handle_seek_request false).running = s.running ∧
    (s.handle_seek_request false).paused = s.paused ∧
    (s.handle_seek_request false).finished = s.finished ∧
    (s.handle_seek_request false).seek_requested = false ∧
    (s.handle_seek_request false).frame_number = pyInt (s.seek_target * s.fps) ∧
    (s.handle_seek_request false).frame_queue = [] := by
  unfold VideoDecoder.handle_seek_request VideoDecoder.perform_seek
  rw [h]
  simp

/-- Witness for C4 (amended) on the concrete rejected-seek state. -/
theorem failed_seek_behavior_witness :
    seekFailState.seek_requested = true ∧
    (seekFailState.handle_seek_request false).container_pos = seekFailState.container_pos ∧
    (seekFailState.handle_seek_request false).seek_requested = false ∧
    (seekFailState.handle_seek_request false).frame_queue = [] :=
  ⟨rfl, (failed_seek_behavior seekFailState rfl).1,
   (failed_seek_behavior seekFailState rfl).2.2.2.2.1,
   (failed_seek_behavior seekFailState rfl).2.2.2.2.2.2⟩

/-! ## Claim C5 -/

/-- C5 counterexample: at 30 fps, half a frame duration is 1/60 s; a new
frame at pts 1/100 is within that distance of the cached frame at pts 0,
yet it IS inserted into the cache — the code deduplicates only within a
fixed 0.001 s. -/
theorem close_pts_still_inserted :
    |(0 : ℚ) - 1/100| < 1 / (2 * stepCacheState.fps) ∧
    (⟨1, 1/100, 0⟩ : VideoFrame) ∈ (stepCacheState.add_to_cache ⟨1, 1/100, 0⟩).frame_cache := by
  constructor
  · rw [abs_zero_sub_of_nonneg (1/100) (by norm_num)]
    norm_num [stepCacheState]
  · have hc : ¬ (|(1 : ℚ)/100| < 1/1000) := by
      rw [abs_of_nonneg (by norm_num : (0 : ℚ) ≤ 1/100)]
      norm_num
    norm_num [stepCacheState, VideoDecoder.add_to_cache, FRAME_CACHE_SIZE,
      List.insertionSort, List.orderedInsert]
    rw [if_neg hc]
    simp

/-- C5 (amended): the deduplication tolerance actually used on insertion is
a fixed 0.001 s: if the cache already holds a frame whose pts is within
0.001 s of the new frame's pts, the frame is not re-inserted and the
worker state is unchanged. -/
theorem cache_dedup_fixed_tolerance (s : VideoDecoder) (f : VideoFrame)
    (h : ∃ c ∈ s.frame_cache, |c.pts - f.pts| < 1/1000) :
    s.add_to_cache f = s := by
  have hcond : (s.frame_cache.any fun c => |c.pts - f.pts| < 1/1000) = true := by
    rw [List.any_eq_true]
    rcases h with ⟨c, hc, hlt⟩
    exact ⟨c, hc, by simpa using hlt⟩
  unfold VideoDecoder.add_to_cache
  rw [hcond]
  simp

/-- Witness for C5 (amended): a new frame at pts 1/2000 is within 0.001 s
of the cached frame at pts 0 and is not inserted. -/
theorem cache_dedup_fixed_tolerance_witness :
    (∃ c ∈ stepCacheState.frame_cache,
      |c.pts - (⟨1, 1/2000, 0⟩ : VideoFrame).pts| < 1/1000) ∧
    stepCacheState.add_to_cache ⟨1, 1/2000, 0⟩ = stepCacheState :=
  ⟨⟨⟨0, 0, 0⟩, by simp [stepCacheState], by
      rw [show ((⟨0, 0, 0⟩ : VideoFrame).pts - (⟨1, 1/2000, 0⟩ : VideoFrame).pts : ℚ) =
        0 - 1/2000 from rfl, abs_zero_sub_of_nonneg (1/2000) (by norm_num)]
      norm_num⟩,
   cache_dedup_fixed_tolerance stepCacheState ⟨1, 1/2000, 0⟩
     ⟨⟨0, 0, 0⟩, by simp [stepCacheState], by
        rw [show ((⟨0, 0, 0⟩ : VideoFrame).pts - (⟨1, 1/2000, 0⟩ : VideoFrame).pts : ℚ) =
          0 - 1/2000 from rfl, abs_zero_sub_of_nonneg (1/2000) (by norm_num)]
        norm_num⟩⟩
